import Mathlib

/-!
# Verification of `gnss_hal_test_cases.cpp` (GNSS HAL VTS test cases)

A shallow embedding of the logic in
`src/gnss/aidl/vts/gnss_hal_test_cases.cpp`:

* `FindStrongFrequentNonGpsSource` — the aggregation/selection routine that
  chooses a blocklist candidate from a list of satellite-visibility
  snapshots (lines 60–132 of the source file).  The C++ `std::map` keyed by
  `ComparableBlocklistedSource` is embedded as an association list kept
  sorted by the same strict order (`operator<`, lines 71–74): iteration over
  a `std::map` visits entries in ascending key order, which the sorted list
  reproduces exactly.
* the post-blocklist snapshot scan of `BlocklistIndividualSatellites`
  (lines 224–234) and its bounded un-blocklist retry loop (lines 242–282);
* the capability gate shared by the three blocklist tests
  (lines 148–154, 296–302, 379–385);
* `TestPsdsExtension` (lines 42–50).

Carrier-to-noise values (`float cN0Dbhz`) are embedded as `ℚ`: the routine
only copies and compares them (no arithmetic), so any linear order is a
faithful model of the float comparisons on the finite values involved.
Enum values (`GnssConstellationType`, `GnssSvFlags`, `PsdsType`, capability
bits) use the numeric encodings of the interface definitions of this
repository (`UNKNOWN = 0`, `GPS = 1`, `GLONASS = 3`, `IRNSS = 7`,
`USED_IN_FIX = 1 << 2`, `LONG_TERM = 1`, `CAPABILITY_SATELLITE_BLOCKLIST =
1 << 9`).
-/

/-- Constellation encoding of `GnssConstellationType` (UNKNOWN). -/
def GnssConstellationType.UNKNOWN : Nat := 0

/-- Constellation encoding of `GnssConstellationType` (GPS, the primary
constellation). -/
def GnssConstellationType.GPS : Nat := 1

/-- Constellation encoding of `GnssConstellationType` (GLONASS). -/
def GnssConstellationType.GLONASS : Nat := 3

/-- Constellation encoding of `GnssConstellationType` (IRNSS). -/
def GnssConstellationType.IRNSS : Nat := 7

/-- `IGnssCallback_1_0::GnssSvFlags::USED_IN_FIX` bit (1 << 2). -/
def GnssSvFlags.USED_IN_FIX : Nat := 4

/-- `android.hardware.gnss.BlocklistedSource`: a (constellation, svid)
pair. -/
structure BlocklistedSource where
  constellation : Nat
  svid : Int
deriving DecidableEq

/-- One satellite record of a visibility snapshot
(`IGnssCallback_2_1::GnssSvInfo`, flattened: `v2_0.v1_0.svid`,
`v2_0.v1_0.cN0Dbhz`, `v2_0.v1_0.svFlag`, `v2_0.constellation`). -/
structure GnssSvInfo where
  svid : Int
  cN0Dbhz : ℚ
  svFlag : Nat
  constellation : Nat
deriving DecidableEq

/-- Per-source accumulator of `FindStrongFrequentNonGpsSource`
(`struct SignalCounts`, lines 77–80). -/
structure SignalCounts where
  observations : Int
  max_cn0_dbhz : ℚ
deriving DecidableEq

/-- `ComparableBlocklistedSource::operator<` (lines 71–74): svid first,
then constellation. -/
def sourceLt (a b : BlocklistedSource) : Prop :=
  a.svid < b.svid ∨ (a.svid = b.svid ∧ a.constellation < b.constellation)

instance (a b : BlocklistedSource) : Decidable (sourceLt a b) := by
  unfold sourceLt; infer_instance

/-- The `std::map<ComparableBlocklistedSource, SignalCounts>` of lines
82–109, as an association list sorted by `sourceLt`. -/
abbrev SignalMap := List (BlocklistedSource × SignalCounts)

/-- One `mapSignals.find` / `insert`-or-update step of lines 94–106, at the
key's sorted position (the position a `std::map` stores it at). A new key
gets `observations = 1`, `max_cn0_dbhz = cn0`; an existing key gets its
count incremented and its maximum raised when strictly exceeded
(lines 96–105). -/
def insertSignal (m : SignalMap) (source : BlocklistedSource) (cn0 : ℚ) : SignalMap :=
  match m with
  | [] => [(source, ⟨1, cn0⟩)]
  | (k, v) :: rest =>
    if sourceLt source k then
      (source, ⟨1, cn0⟩) :: (k, v) :: rest
    else if sourceLt k source then
      (k, v) :: insertSignal rest source cn0
    else
      (k, ⟨v.observations + 1, if v.max_cn0_dbhz < cn0 then cn0 else v.max_cn0_dbhz⟩) :: rest

/-- The per-record filter and aggregation step of lines 86–107: a record is
aggregated exactly when its `USED_IN_FIX` flag is set and its
constellation is not GPS. -/
def processSv (mapSignals : SignalMap) (gnss_sv : GnssSvInfo) : SignalMap :=
  if gnss_sv.svFlag &&& GnssSvFlags.USED_IN_FIX ≠ 0 ∧
     gnss_sv.constellation ≠ GnssConstellationType.GPS then
    insertSignal mapSignals ⟨gnss_sv.constellation, gnss_sv.svid⟩ gnss_sv.cN0Dbhz
  else
    mapSignals

/-- The nested loops of lines 84–109: aggregate every record of every
snapshot into the signal map. -/
def buildSignalMap (sv_info_list : List (List GnssSvInfo)) : SignalMap :=
  sv_info_list.foldl (fun m sv_info_vec => sv_info_vec.foldl processSv m) []

/-- Accumulator of the selection loop of lines 111–124. -/
structure SelState where
  max_cn0_dbhz_with_sufficient_count : ℚ
  total_observation_count : Int
  blocklisted_source_count_observation : Int
  source_to_blocklist : BlocklistedSource
deriving DecidableEq

/-- One iteration of the selection loop (lines 116–124): add the entry's
count to the total (line 117, unconditional); select the entry when its
count reaches `min_observations` and its maximum strictly exceeds the
running maximum (which starts at `0.`, line 111).  The condition does not
read the total, so adding the total inside both branches is the same as
adding it before the test as the C++ does. -/
def selStep (min_observations : Int) (st : SelState)
    (pairSignal : BlocklistedSource × SignalCounts) : SelState :=
  if min_observations ≤ pairSignal.2.observations ∧
     st.max_cn0_dbhz_with_sufficient_count < pairSignal.2.max_cn0_dbhz then
    { max_cn0_dbhz_with_sufficient_count := pairSignal.2.max_cn0_dbhz
      total_observation_count := st.total_observation_count + pairSignal.2.observations
      blocklisted_source_count_observation := pairSignal.2.observations
      source_to_blocklist := pairSignal.1 }
  else
    { st with
      total_observation_count := st.total_observation_count + pairSignal.2.observations }

/-- Initial selection state (lines 111–115): running maximum `0.`, counts
`0`, and the default `ComparableBlocklistedSource` (constellation
`UNKNOWN`, svid `0`, lines 66–69). -/
def initialSelState : SelState :=
  ⟨0, 0, 0, ⟨GnssConstellationType.UNKNOWN, 0⟩⟩

/-- `FindStrongFrequentNonGpsSource` (lines 60–132): aggregate, then scan
the map in ascending key order and return the selected source. -/
def FindStrongFrequentNonGpsSource (sv_info_list : List (List GnssSvInfo))
    (min_observations : Int) : BlocklistedSource :=
  ((buildSignalMap sv_info_list).foldl (selStep min_observations)
    initialSelState).source_to_blocklist

/-! ## Order facts about `sourceLt` -/

theorem sourceLt_irrefl (a : BlocklistedSource) : ¬ sourceLt a a := by
  simp only [sourceLt]; omega

theorem sourceLt_asymm {a b : BlocklistedSource} (h : sourceLt a b) : ¬ sourceLt b a := by
  simp only [sourceLt] at *; omega

theorem sourceLt_trans {a b c : BlocklistedSource}
    (hab : sourceLt a b) (hbc : sourceLt b c) : sourceLt a c := by
  simp only [sourceLt] at *; omega

theorem sourceLt_conn {a b : BlocklistedSource}
    (h1 : ¬ sourceLt a b) (h2 : ¬ sourceLt b a) : a = b := by
  obtain ⟨ca, sa⟩ := a
  obtain ⟨cb, sb⟩ := b
  simp only [sourceLt] at h1 h2
  simp only [BlocklistedSource.mk.injEq]
  omega

/-! ## Rewrite lemmas for `insertSignal` -/

theorem insertSignal_nil (source : BlocklistedSource) (cn0 : ℚ) :
    insertSignal [] source cn0 = [(source, ⟨1, cn0⟩)] := rfl

theorem insertSignal_cons_lt {source k : BlocklistedSource} (h : sourceLt source k)
    (v : SignalCounts) (m : SignalMap) (cn0 : ℚ) :
    insertSignal ((k, v) :: m) source cn0 = (source, ⟨1, cn0⟩) :: (k, v) :: m := by
  simp [insertSignal, h]

theorem insertSignal_cons_gt {source k : BlocklistedSource} (h : sourceLt k source)
    (v : SignalCounts) (m : SignalMap) (cn0 : ℚ) :
    insertSignal ((k, v) :: m) source cn0 = (k, v) :: insertSignal m source cn0 := by
  simp [insertSignal, h, sourceLt_asymm h]

theorem insertSignal_cons_eq {source k : BlocklistedSource}
    (h1 : ¬ sourceLt source k) (h2 : ¬ sourceLt k source)
    (v : SignalCounts) (m : SignalMap) (cn0 : ℚ) :
    insertSignal ((k, v) :: m) source cn0 =
      (k, ⟨v.observations + 1,
        if v.max_cn0_dbhz < cn0 then cn0 else v.max_cn0_dbhz⟩) :: m := by
  simp [insertSignal, h1, h2]

/-! ## Commutativity of the aggregation step

Aggregating two records commutes: `std::map::insert`/update places an
entry at its key's sorted position and combines values with `count + 1`
and `max`, so the final map depends only on the multiset of aggregated
records, not on their order. -/

theorem sourceLt_trichot (a b : BlocklistedSource) :
    sourceLt a b ∨ a = b ∨ sourceLt b a := by
  by_cases h1 : sourceLt a b
  · exact Or.inl h1
  · by_cases h2 : sourceLt b a
    · exact Or.inr (Or.inr h2)
    · exact Or.inr (Or.inl (sourceLt_conn h1 h2))

theorem if_lt_max (a b : ℚ) : (if a < b then b else a) = max a b := by
  rcases le_or_lt b a with h | h
  · rw [if_neg (not_lt.mpr h), max_eq_left h]
  · rw [if_pos h, max_eq_right h.le]

theorem insertSignal_comm (s1 s2 : BlocklistedSource) (c1 c2 : ℚ) (m : SignalMap) :
    insertSignal (insertSignal m s1 c1) s2 c2 =
      insertSignal (insertSignal m s2 c2) s1 c1 := by
  induction m with
  | nil =>
    rcases sourceLt_trichot s1 s2 with g | g | g
    · simp only [insertSignal_nil, insertSignal_cons_gt g, insertSignal_cons_lt g]
    · subst g
      simp [insertSignal_nil,
        insertSignal_cons_eq (sourceLt_irrefl s1) (sourceLt_irrefl s1),
        if_lt_max, max_comm]
    · simp only [insertSignal_nil, insertSignal_cons_gt g, insertSignal_cons_lt g]
  | cons kv rest ih =>
    obtain ⟨k, v⟩ := kv
    rcases sourceLt_trichot s1 k with h1 | h1 | h1
    · rcases sourceLt_trichot s2 k with h2 | h2 | h2
      · rcases sourceLt_trichot s1 s2 with g | g | g
        · simp only [insertSignal_cons_lt h1, insertSignal_cons_lt h2,
            insertSignal_cons_gt g, insertSignal_cons_lt g]
        · subst g
          simp [insertSignal_cons_lt h1,
            insertSignal_cons_eq (sourceLt_irrefl s1) (sourceLt_irrefl s1),
            if_lt_max, max_comm]
        · simp only [insertSignal_cons_lt h1, insertSignal_cons_lt h2,
            insertSignal_cons_gt g, insertSignal_cons_lt g]
      · subst h2
        simp only [insertSignal_cons_lt h1, insertSignal_cons_gt h1,
          insertSignal_cons_eq (sourceLt_irrefl s2) (sourceLt_irrefl s2)]
      · have g : sourceLt s1 s2 := sourceLt_trans h1 h2
        simp only [insertSignal_cons_lt h1, insertSignal_cons_gt h2,
          insertSignal_cons_gt g]
    · subst h1
      rcases sourceLt_trichot s2 s1 with h2 | h2 | h2
      · simp only [insertSignal_cons_lt h2, insertSignal_cons_gt h2,
          insertSignal_cons_eq (sourceLt_irrefl s1) (sourceLt_irrefl s1)]
      · subst h2
        simp only [insertSignal_cons_eq (sourceLt_irrefl s2) (sourceLt_irrefl s2), if_lt_max]
        rw [Max.right_comm]
      · simp only [insertSignal_cons_gt h2,
          insertSignal_cons_eq (sourceLt_irrefl s1) (sourceLt_irrefl s1)]
    · rcases sourceLt_trichot s2 k with h2 | h2 | h2
      · have g : sourceLt s2 s1 := sourceLt_trans h2 h1
        simp only [insertSignal_cons_gt h1, insertSignal_cons_lt h2,
          insertSignal_cons_gt g]
      · subst h2
        simp only [insertSignal_cons_gt h1,
          insertSignal_cons_eq (sourceLt_irrefl s2) (sourceLt_irrefl s2)]
      · simp only [insertSignal_cons_gt h1, insertSignal_cons_gt h2, ih]

theorem processSv_comm (m : SignalMap) (a b : GnssSvInfo) :
    processSv (processSv m a) b = processSv (processSv m b) a := by
  unfold processSv
  split_ifs <;> first
  | rfl
  | exact insertSignal_comm _ _ _ _ m

/-! ## The signal map as a fold over the flattened record stream -/

theorem buildSignalMap_eq_flatten (sv_info_list : List (List GnssSvInfo)) :
    buildSignalMap sv_info_list = sv_info_list.flatten.foldl processSv [] := by
  suffices h : ∀ (l : List (List GnssSvInfo)) (m : SignalMap),
      l.foldl (fun m' sv_info_vec => sv_info_vec.foldl processSv m') m =
        l.flatten.foldl processSv m by
    exact h sv_info_list []
  intro l
  induction l with
  | nil => intro m; rfl
  | cons sv_info_vec rest ih =>
    intro m
    simp only [List.foldl_cons, List.flatten_cons, List.foldl_append, ih]

/-! ## Facts about the selection loop -/

theorem selFold_max_mono (n : Int) (m : List (BlocklistedSource × SignalCounts)) :
    ∀ st : SelState, st.max_cn0_dbhz_with_sufficient_count ≤
      (m.foldl (selStep n) st).max_cn0_dbhz_with_sufficient_count := by
  induction m with
  | nil => intro st; exact le_refl _
  | cons p rest ih =>
    intro st
    simp only [List.foldl_cons]
    refine le_trans ?_ (ih (selStep n st p))
    unfold selStep
    split_ifs with h
    · exact le_of_lt h.2
    · exact le_refl _

theorem selFold_source_origin (n : Int) (m : List (BlocklistedSource × SignalCounts)) :
    ∀ st : SelState,
      ((m.foldl (selStep n) st).source_to_blocklist = st.source_to_blocklist ∧
        (m.foldl (selStep n) st).max_cn0_dbhz_with_sufficient_count =
          st.max_cn0_dbhz_with_sufficient_count) ∨
      ∃ p ∈ m, n ≤ p.2.observations ∧
        (m.foldl (selStep n) st).source_to_blocklist = p.1 ∧
        (m.foldl (selStep n) st).max_cn0_dbhz_with_sufficient_count =
          p.2.max_cn0_dbhz := by
  induction m with
  | nil => intro st; exact Or.inl ⟨rfl, rfl⟩
  | cons p rest ih =>
    intro st
    simp only [List.foldl_cons]
    rcases ih (selStep n st p) with ⟨hs, hm⟩ | ⟨q, hq, hobs, hs, hm⟩
    · by_cases h : n ≤ p.2.observations ∧
          st.max_cn0_dbhz_with_sufficient_count < p.2.max_cn0_dbhz
      · right
        refine ⟨p, List.mem_cons_self _ _, h.1, ?_, ?_⟩
        · rw [hs]; simp [selStep, if_pos h]
        · rw [hm]; simp [selStep, if_pos h]
      · left
        constructor
        · rw [hs]; simp [selStep, if_neg h]
        · rw [hm]; simp [selStep, if_neg h]
    · right
      exact ⟨q, List.mem_cons_of_mem _ hq, hobs, hs, hm⟩

theorem selFold_max_ge (n : Int) (m : List (BlocklistedSource × SignalCounts)) :
    ∀ st : SelState, ∀ p ∈ m, n ≤ p.2.observations →
      p.2.max_cn0_dbhz ≤ (m.foldl (selStep n) st).max_cn0_dbhz_with_sufficient_count := by
  induction m with
  | nil => intro st p hp; cases hp
  | cons q rest ih =>
    intro st p hp hobs
    simp only [List.foldl_cons]
    rcases List.mem_cons.mp hp with rfl | hp'
    · refine le_trans ?_ (selFold_max_mono n rest (selStep n st p))
      by_cases h : n ≤ p.2.observations ∧
          st.max_cn0_dbhz_with_sufficient_count < p.2.max_cn0_dbhz
      · simp [selStep, if_pos h]
      · have hle : p.2.max_cn0_dbhz ≤ st.max_cn0_dbhz_with_sufficient_count := by
          by_contra hlt
          exact h ⟨hobs, lt_of_not_le hlt⟩
        refine le_trans hle (le_of_eq ?_)
        simp [selStep, if_neg h]
    · exact ih (selStep n st q) p hp' hobs

/-! ## Keys of the signal map come from aggregated records -/

theorem insertSignal_key_origin (m : SignalMap) (source : BlocklistedSource) (cn0 : ℚ)
    {q : BlocklistedSource × SignalCounts} (hq : q ∈ insertSignal m source cn0) :
    q.1 = source ∨ ∃ r ∈ m, q.1 = r.1 := by
  induction m with
  | nil =>
    rw [insertSignal_nil] at hq
    rcases List.mem_singleton.mp hq with rfl
    exact Or.inl rfl
  | cons kv rest ih =>
    obtain ⟨k, v⟩ := kv
    by_cases h1 : sourceLt source k
    · rw [insertSignal_cons_lt h1] at hq
      rcases List.mem_cons.mp hq with rfl | hq'
      · exact Or.inl rfl
      · exact Or.inr ⟨q, hq', rfl⟩
    · by_cases h2 : sourceLt k source
      · rw [insertSignal_cons_gt h2] at hq
        rcases List.mem_cons.mp hq with rfl | hq'
        · exact Or.inr ⟨(k, v), List.mem_cons_self _ _, rfl⟩
        · rcases ih hq' with h | ⟨r, hr, h⟩
          · exact Or.inl h
          · exact Or.inr ⟨r, List.mem_cons_of_mem _ hr, h⟩
      · rw [insertSignal_cons_eq h1 h2] at hq
        rcases List.mem_cons.mp hq with rfl | hq'
        · exact Or.inr ⟨(k, v), List.mem_cons_self _ _, rfl⟩
        · exact Or.inr ⟨q, List.mem_cons_of_mem _ hq', rfl⟩

theorem buildSignalMap_keys_not_gps (sv_info_list : List (List GnssSvInfo)) :
    ∀ q ∈ buildSignalMap sv_info_list,
      q.1.constellation ≠ GnssConstellationType.GPS := by
  rw [buildSignalMap_eq_flatten]
  suffices h : ∀ (rs : List GnssSvInfo) (m : SignalMap),
      (∀ q ∈ m, q.1.constellation ≠ GnssConstellationType.GPS) →
      ∀ q ∈ rs.foldl processSv m, q.1.constellation ≠ GnssConstellationType.GPS by
    exact h _ [] (by intro q hq; cases hq)
  intro rs
  induction rs with
  | nil => intro m hm; exact hm
  | cons sv rest ih =>
    intro m hm
    simp only [List.foldl_cons]
    apply ih
    intro q hq
    unfold processSv at hq
    split_ifs at hq with hcond
    · rcases insertSignal_key_origin m _ _ hq with h1 | ⟨r, hr, h1⟩
      · rw [h1]; exact hcond.2
      · rw [h1]; exact hm r hr
    · exact hm q hq

/-! ## Concrete inputs -/

/-- Three used-in-fix GLONASS svid-7 records at strengths 30, 35, 28, one
per snapshot. -/
def glonassExample : List (List GnssSvInfo) :=
  [[⟨7, 30, GnssSvFlags.USED_IN_FIX, GnssConstellationType.GLONASS⟩],
   [⟨7, 35, GnssSvFlags.USED_IN_FIX, GnssConstellationType.GLONASS⟩],
   [⟨7, 28, GnssSvFlags.USED_IN_FIX, GnssConstellationType.GLONASS⟩]]

/-- Two used-in-fix GLONASS svid-5 records whose strengths are 0 and -1:
the group's recorded maximum is 0, which the selection loop's strict
comparison against the 0-initialized accumulator never accepts. -/
def nonpositiveMaxExample : List (List GnssSvInfo) :=
  [[⟨5, 0, GnssSvFlags.USED_IN_FIX, GnssConstellationType.GLONASS⟩],
   [⟨5, -1, GnssSvFlags.USED_IN_FIX, GnssConstellationType.GLONASS⟩]]

/-- A tie at maximum strength 20 between (GLONASS, 9), seen first, and
(GLONASS, 3), seen second. -/
def tieExample : List (List GnssSvInfo) :=
  [[⟨9, 20, GnssSvFlags.USED_IN_FIX, GnssConstellationType.GLONASS⟩,
    ⟨3, 20, GnssSvFlags.USED_IN_FIX, GnssConstellationType.GLONASS⟩]]

/-! ## Claim theorems -/

/-- C1 (counterexample): a single group with observation count 2 meets
threshold 2, so the greatest maximum among qualifying groups is attained
by (GLONASS, 5); but its recorded maximum is 0, and
`FindStrongFrequentNonGpsSource` does not return that source (it returns
the UNKNOWN sentinel), because the selection compares strictly against an
accumulator initialized to 0. -/
theorem findStrong_skips_nonpositive_max_counterexample :
    buildSignalMap nonpositiveMaxExample =
      [(⟨GnssConstellationType.GLONASS, 5⟩, ⟨2, 0⟩)] ∧
    FindStrongFrequentNonGpsSource nonpositiveMaxExample 2 ≠
      ⟨GnssConstellationType.GLONASS, 5⟩ := by decide

/-- C1 (amended): whenever some group meets the observation threshold with
a positive recorded maximum, `FindStrongFrequentNonGpsSource` returns the
source of a group that meets the threshold and whose recorded maximum
signal strength is greatest among all groups meeting the threshold. -/
theorem findStrong_returns_greatest_qualifying_max
    (sv_info_list : List (List GnssSvInfo)) (min_observations : Int)
    (h : ∃ p ∈ buildSignalMap sv_info_list,
      min_observations ≤ p.2.observations ∧ 0 < p.2.max_cn0_dbhz) :
    ∃ p ∈ buildSignalMap sv_info_list,
      FindStrongFrequentNonGpsSource sv_info_list min_observations = p.1 ∧
      min_observations ≤ p.2.observations ∧
      ∀ q ∈ buildSignalMap sv_info_list, min_observations ≤ q.2.observations →
        q.2.max_cn0_dbhz ≤ p.2.max_cn0_dbhz := by
  obtain ⟨p0, hp0, hobs0, hpos0⟩ := h
  unfold FindStrongFrequentNonGpsSource
  rcases selFold_source_origin min_observations (buildSignalMap sv_info_list)
      initialSelState with ⟨hs, hm⟩ | ⟨q, hq, hobs, hs, hm⟩
  · exfalso
    have h1 := selFold_max_ge min_observations (buildSignalMap sv_info_list)
      initialSelState p0 hp0 hobs0
    rw [hm] at h1
    have h2 : p0.2.max_cn0_dbhz ≤ 0 := by simpa [initialSelState] using h1
    exact absurd (lt_of_lt_of_le hpos0 h2) (lt_irrefl 0)
  · refine ⟨q, hq, hs, hobs, ?_⟩
    intro r hr hrobs
    have h1 := selFold_max_ge min_observations (buildSignalMap sv_info_list)
      initialSelState r hr hrobs
    rw [hm] at h1
    exact h1

/-- Witness for the amended C1 theorem at the GLONASS example input. -/
theorem findStrong_returns_greatest_qualifying_max_witness :
    ∃ p ∈ buildSignalMap glonassExample,
      FindStrongFrequentNonGpsSource glonassExample 2 = p.1 ∧
      (2 : Int) ≤ p.2.observations ∧
      ∀ q ∈ buildSignalMap glonassExample, (2 : Int) ≤ q.2.observations →
        q.2.max_cn0_dbhz ≤ p.2.max_cn0_dbhz :=
  findStrong_returns_greatest_qualifying_max glonassExample 2 (by decide)

/-- C2: the returned source never has the GPS (primary) constellation:
GPS records are excluded from grouping, and the result is either a map
key or the UNKNOWN-constellation sentinel. -/
theorem findStrong_never_returns_gps
    (sv_info_list : List (List GnssSvInfo)) (min_observations : Int) :
    (FindStrongFrequentNonGpsSource sv_info_list min_observations).constellation ≠
      GnssConstellationType.GPS := by
  unfold FindStrongFrequentNonGpsSource
  rcases selFold_source_origin min_observations (buildSignalMap sv_info_list)
      initialSelState with ⟨hs, _⟩ | ⟨q, hq, _, hs, _⟩
  · rw [hs]; decide
  · rw [hs]; exact buildSignalMap_keys_not_gps sv_info_list q hq

/-- C3: on the empty snapshot list, and more generally whenever no group
reaches the minimum observation count, `FindStrongFrequentNonGpsSource`
returns the sentinel source (constellation UNKNOWN, svid 0). -/
theorem findStrong_sentinel_when_no_group_qualifies
    (sv_info_list : List (List GnssSvInfo)) (min_observations : Int)
    (h : ∀ p ∈ buildSignalMap sv_info_list, p.2.observations < min_observations) :
    FindStrongFrequentNonGpsSource [] min_observations =
      ⟨GnssConstellationType.UNKNOWN, 0⟩ ∧
    FindStrongFrequentNonGpsSource sv_info_list min_observations =
      ⟨GnssConstellationType.UNKNOWN, 0⟩ := by
  constructor
  · rfl
  · unfold FindStrongFrequentNonGpsSource
    rcases selFold_source_origin min_observations (buildSignalMap sv_info_list)
        initialSelState with ⟨hs, _⟩ | ⟨q, hq, hobs, _, _⟩
    · rw [hs]; rfl
    · exact absurd hobs (not_le.mpr (h q hq))

/-- Witness for the C3 theorem: threshold 3 with groups of count at most
2. -/
theorem findStrong_sentinel_when_no_group_qualifies_witness :
    FindStrongFrequentNonGpsSource [] 3 = ⟨GnssConstellationType.UNKNOWN, 0⟩ ∧
    FindStrongFrequentNonGpsSource nonpositiveMaxExample 3 =
      ⟨GnssConstellationType.UNKNOWN, 0⟩ :=
  findStrong_sentinel_when_no_group_qualifies nonpositiveMaxExample 3 (by decide)

/-- C4: a non-GPS group (GLONASS, 5) meets threshold 2 but its recorded
maximum strength is 0 (not positive), and the function returns the
UNKNOWN sentinel: the selection compares each group's maximum strictly
against an accumulator initialized to 0. -/
theorem findStrong_sentinel_when_all_maxes_nonpositive :
    buildSignalMap nonpositiveMaxExample =
      [(⟨GnssConstellationType.GLONASS, 5⟩, ⟨2, 0⟩)] ∧
    (2 : Int) ≤ 2 ∧ (0 : ℚ) ≤ 0 ∧
    FindStrongFrequentNonGpsSource nonpositiveMaxExample 2 =
      ⟨GnssConstellationType.UNKNOWN, 0⟩ := by decide

/-- C5 (counterexample): two groups tie at maximum strength 20; the
(GLONASS, 9) record is seen first in the input, yet the function returns
(GLONASS, 3): ties are broken by ascending map key order (svid, then
constellation), not by first-seen order. -/
theorem findStrong_tiebreak_not_first_seen_counterexample :
    buildSignalMap tieExample =
      [(⟨GnssConstellationType.GLONASS, 3⟩, ⟨1, 20⟩),
       (⟨GnssConstellationType.GLONASS, 9⟩, ⟨1, 20⟩)] ∧
    FindStrongFrequentNonGpsSource tieExample 1 =
      ⟨GnssConstellationType.GLONASS, 3⟩ ∧
    FindStrongFrequentNonGpsSource tieExample 1 ≠
      ⟨GnssConstellationType.GLONASS, 9⟩ := by decide

/-- C5 (amended): the result of `FindStrongFrequentNonGpsSource` is
invariant under any reordering of the aggregated records across the
snapshots: the `std::map` stores groups sorted by key, so the selection
scan is independent of input order and ties are broken by ascending key
order deterministically. -/
theorem findStrong_invariant_under_reordering
    (l1 l2 : List (List GnssSvInfo)) (min_observations : Int)
    (h : l1.flatten.Perm l2.flatten) :
    FindStrongFrequentNonGpsSource l1 min_observations =
      FindStrongFrequentNonGpsSource l2 min_observations := by
  unfold FindStrongFrequentNonGpsSource
  rw [buildSignalMap_eq_flatten, buildSignalMap_eq_flatten,
    h.foldl_eq' (fun x _ y _ z => processSv_comm z x y) []]

/-- Witness for the C5 theorem: the tie example reordered (records swapped
and split across snapshots) yields the same source. -/
theorem findStrong_invariant_under_reordering_witness :
    FindStrongFrequentNonGpsSource tieExample 1 =
      FindStrongFrequentNonGpsSource
        [[⟨3, 20, GnssSvFlags.USED_IN_FIX, GnssConstellationType.GLONASS⟩],
         [⟨9, 20, GnssSvFlags.USED_IN_FIX, GnssConstellationType.GLONASS⟩]] 1 :=
  findStrong_invariant_under_reordering _ _ 1 (by decide)

/-- C6: snapshots with exactly 3 used-in-fix GLONASS svid-7 records at
strengths 30, 35 and 28, with threshold 2, select (GLONASS, 7), and the
recorded maximum strength for that group is 35. -/
theorem findStrong_glonass_example :
    FindStrongFrequentNonGpsSource glonassExample 2 =
      ⟨GnssConstellationType.GLONASS, 7⟩ ∧
    buildSignalMap glonassExample =
      [(⟨GnssConstellationType.GLONASS, 7⟩, ⟨3, 35⟩)] := by decide

/-! ## `BlocklistIndividualSatellites`: post-blocklist scan and retry loop -/

/-- The record condition tested by `BlocklistIndividualSatellites` both in
the post-blocklist scan (lines 229–232, under `EXPECT_FALSE`) and in the
un-blocklist retry scan (lines 271–274): svid and constellation equal the
blocklisted source's, and the `USED_IN_FIX` flag is set. -/
def svMatchesBlocklistedInFix (source_to_blocklist : BlocklistedSource)
    (gnss_sv : GnssSvInfo) : Bool :=
  (gnss_sv.svid == source_to_blocklist.svid) &&
  (gnss_sv.constellation == source_to_blocklist.constellation) &&
  (gnss_sv.svFlag &&& GnssSvFlags.USED_IN_FIX != 0)

theorem svMatchesBlocklistedInFix_iff (s : BlocklistedSource) (sv : GnssSvInfo) :
    svMatchesBlocklistedInFix s sv = true ↔
      sv.svid = s.svid ∧ sv.constellation = s.constellation ∧
      sv.svFlag &&& GnssSvFlags.USED_IN_FIX ≠ 0 := by
  simp [svMatchesBlocklistedInFix, and_assoc]

/-- The post-blocklist scan (lines 224–234): every retrieved snapshot's
records are checked with `EXPECT_FALSE`, a soft expectation that records a
violation and continues.  This counts the violations recorded. -/
def countBlocklistedUseViolations (source_to_blocklist : BlocklistedSource)
    (sv_info_vecs : List (List GnssSvInfo)) : Nat :=
  sv_info_vecs.foldl
    (fun acc sv_info_vec =>
      sv_info_vec.foldl
        (fun acc2 gnss_sv =>
          if svMatchesBlocklistedInFix source_to_blocklist gnss_sv then acc2 + 1
          else acc2)
        acc)
    0

theorem foldl_violation_count (s : BlocklistedSource) (vec : List GnssSvInfo) :
    ∀ acc : Nat,
      vec.foldl (fun a sv => if svMatchesBlocklistedInFix s sv then a + 1 else a) acc =
        acc + vec.countP (svMatchesBlocklistedInFix s) := by
  induction vec with
  | nil => intro acc; simp
  | cons sv rest ih =>
    intro acc
    simp only [List.foldl_cons, List.countP_cons, ih]
    by_cases h : svMatchesBlocklistedInFix s sv = true
    · simp only [h, if_pos]; omega
    · simp only [h, if_neg, Bool.false_eq_true, not_false_eq_true, if_false]; omega

theorem countViolations_eq_countP (s : BlocklistedSource)
    (vecs : List (List GnssSvInfo)) :
    countBlocklistedUseViolations s vecs =
      vecs.flatten.countP (svMatchesBlocklistedInFix s) := by
  unfold countBlocklistedUseViolations
  suffices h : ∀ (vs : List (List GnssSvInfo)) (acc : Nat),
      vs.foldl
        (fun acc sv_info_vec =>
          sv_info_vec.foldl
            (fun acc2 gnss_sv =>
              if svMatchesBlocklistedInFix s gnss_sv then acc2 + 1 else acc2)
            acc)
        acc = acc + vs.flatten.countP (svMatchesBlocklistedInFix s) by
    simpa using h vecs 0
  intro vs
  induction vs with
  | nil => intro acc; simp
  | cons vec rest ih =>
    intro acc
    simp only [List.foldl_cons]
    rw [ih, foldl_violation_count]
    simp only [List.flatten_cons, List.countP_append]
    omega

/-- C7: the post-blocklist scan records a violation exactly for records
whose svid and constellation equal the blocklisted source's with the
used-in-fix flag set; it passes (no violation recorded) precisely when no
retrieved snapshot contains such a record. -/
theorem blocklistScan_passes_iff_no_blocklisted_use
    (source_to_blocklist : BlocklistedSource) (sv_info_vecs : List (List GnssSvInfo)) :
    countBlocklistedUseViolations source_to_blocklist sv_info_vecs = 0 ↔
      ∀ sv_info_vec ∈ sv_info_vecs, ∀ gnss_sv ∈ sv_info_vec,
        ¬ (gnss_sv.svid = source_to_blocklist.svid ∧
           gnss_sv.constellation = source_to_blocklist.constellation ∧
           gnss_sv.svFlag &&& GnssSvFlags.USED_IN_FIX ≠ 0) := by
  rw [countViolations_eq_countP, List.countP_eq_zero]
  constructor
  · intro h vec hvec sv hsv
    rw [← svMatchesBlocklistedInFix_iff]
    exact fun hc => h sv (List.mem_flatten_of_mem hvec hsv) hc
  · intro h sv hsv
    obtain ⟨vec, hvec, hsv'⟩ := List.mem_flatten.mp hsv
    rw [svMatchesBlocklistedInFix_iff]
    exact h vec hvec sv hsv'

/-- Witness for the C7 theorem: a clean snapshot history records no
violation. -/
theorem blocklistScan_passes_iff_no_blocklisted_use_witness :
    countBlocklistedUseViolations ⟨GnssConstellationType.GLONASS, 5⟩
      [[⟨7, 30, 0, GnssConstellationType.GLONASS⟩]] = 0 :=
  (blocklistScan_passes_iff_no_blocklisted_use _ _).mpr (by decide)

/-- `kRetriesToUnBlocklist` (line 157). -/
def kRetriesToUnBlocklist : Nat := 10

/-- Does any snapshot retrieved in one retry loop contain the blocklisted
source marked used-in-fix (lines 266–280, including the early `break`,
which does not change whether a match exists)? -/
def svInfoVecsHaveSource (source_to_blocklist : BlocklistedSource)
    (sv_info_vecs : List (List GnssSvInfo)) : Bool :=
  sv_info_vecs.any (fun sv_info_vec =>
    sv_info_vec.any (svMatchesBlocklistedInFix source_to_blocklist))

/-- The un-blocklist retry loop (lines 242–281):
`while (!strongest_sv_is_reobserved && (unblocklist_loops_remaining-- > 0))`,
starting from `kRetriesToUnBlocklist` remaining loops.  Each iteration
consumes the snapshots the HAL delivers for that iteration (an element of
`loop_deliveries`; a missing element stands for an iteration in which no
snapshot arrived) and stops as soon as the source is reobserved. -/
def runUnBlocklistLoops (source_to_blocklist : BlocklistedSource) :
    Nat → List (List (List GnssSvInfo)) → Bool
  | 0, _ => false
  | _ + 1, [] => false
  | fuel + 1, loop_delivery :: rest =>
    if svInfoVecsHaveSource source_to_blocklist loop_delivery then true
    else runUnBlocklistLoops source_to_blocklist fuel rest

theorem runUnBlocklistLoops_eq_any (s : BlocklistedSource) :
    ∀ (fuel : Nat) (loop_deliveries : List (List (List GnssSvInfo))),
      runUnBlocklistLoops s fuel loop_deliveries =
        (loop_deliveries.take fuel).any (svInfoVecsHaveSource s) := by
  intro fuel
  induction fuel with
  | zero => intro l; simp [runUnBlocklistLoops]
  | succ n ih =>
    intro l
    cases l with
    | nil => simp [runUnBlocklistLoops]
    | cons loop_delivery rest =>
      simp only [runUnBlocklistLoops, List.take_succ_cons, List.any_cons]
      by_cases h : svInfoVecsHaveSource s loop_delivery = true
      · simp [h]
      · simp [h, ih]

theorem take_take_self {α : Type} (n : Nat) :
    ∀ l : List α, (l.take n).take n = l.take n := by
  induction n with
  | zero => intro l; simp
  | succ m ih =>
    intro l
    cases l with
    | nil => simp
    | cons a rest => simp [List.take_succ_cons, ih]

/-- C8: the retry loop runs at most `kRetriesToUnBlocklist = 10`
iterations (deliveries beyond the 10th are never examined), and the final
`EXPECT_TRUE(strongest_sv_is_reobserved)` passes exactly when some
delivery among the first 10 contains a snapshot with the previously
blocklisted source marked used-in-fix. -/
theorem unblocklistRetry_bounded_and_passes_iff
    (source_to_blocklist : BlocklistedSource)
    (loop_deliveries : List (List (List GnssSvInfo))) :
    runUnBlocklistLoops source_to_blocklist kRetriesToUnBlocklist loop_deliveries =
      runUnBlocklistLoops source_to_blocklist kRetriesToUnBlocklist
        (loop_deliveries.take kRetriesToUnBlocklist) ∧
    (runUnBlocklistLoops source_to_blocklist kRetriesToUnBlocklist loop_deliveries = true ↔
      ∃ loop_delivery ∈ loop_deliveries.take kRetriesToUnBlocklist,
        ∃ sv_info_vec ∈ loop_delivery, ∃ gnss_sv ∈ sv_info_vec,
          gnss_sv.svid = source_to_blocklist.svid ∧
          gnss_sv.constellation = source_to_blocklist.constellation ∧
          gnss_sv.svFlag &&& GnssSvFlags.USED_IN_FIX ≠ 0) := by
  constructor
  · rw [runUnBlocklistLoops_eq_any, runUnBlocklistLoops_eq_any, take_take_self]
  · rw [runUnBlocklistLoops_eq_any]
    simp only [List.any_eq_true, svInfoVecsHaveSource, svMatchesBlocklistedInFix_iff]

/-- Witness for the C8 theorem: a delivery containing the source in the
first loop makes the final expectation pass. -/
theorem unblocklistRetry_bounded_and_passes_iff_witness :
    runUnBlocklistLoops ⟨GnssConstellationType.GLONASS, 7⟩ kRetriesToUnBlocklist
      [[[⟨7, 30, GnssSvFlags.USED_IN_FIX, GnssConstellationType.GLONASS⟩]]] = true :=
  (unblocklistRetry_bounded_and_passes_iff ⟨GnssConstellationType.GLONASS, 7⟩
    [[[⟨7, 30, GnssSvFlags.USED_IN_FIX, GnssConstellationType.GLONASS⟩]]]).2.mpr
    (by decide)

/-! ## Capability gating of the blocklist tests -/

/-- Modelled from the spec: the advertised capability bit that gates the
three blocklist tests, `CAPABILITY_SATELLITE_BLOCKLIST = 1 << 9` of
`android.hardware.gnss.IGnssCallback` (an interface file of this
repository outside the reviewed test source). -/
def CAPABILITY_SATELLITE_BLOCKLIST : Nat := 512

/-- Observable effects of running one test body: how many HAL calls it
performed and how many hard (aborting) and soft (recorded) assertion
failures it produced. -/
structure TestRun where
  halCalls : Nat
  hardFailures : Nat
  softFailures : Nat
deriving DecidableEq

/-- A skipped test: the early `return` performs no HAL call and records no
failure. -/
def skippedRun : TestRun := ⟨0, 0, 0⟩

/-- The capability gate of `BlocklistIndividualSatellites` (lines
148–154): when `last_capabilities_` lacks the `SATELLITE_BLOCKLIST` bit
the test returns immediately; otherwise its body runs. -/
def blocklistIndividualSatellitesRun (last_capabilities : Nat)
    (body : TestRun) : TestRun :=
  if last_capabilities &&& CAPABILITY_SATELLITE_BLOCKLIST = 0 then skippedRun
  else body

/-- The capability gate of `BlocklistConstellationLocationOff` (lines
296–302). -/
def blocklistConstellationLocationOffRun (last_capabilities : Nat)
    (body : TestRun) : TestRun :=
  if last_capabilities &&& CAPABILITY_SATELLITE_BLOCKLIST = 0 then skippedRun
  else body

/-- The capability gate of `BlocklistConstellationLocationOn` (lines
379–385). -/
def blocklistConstellationLocationOnRun (last_capabilities : Nat)
    (body : TestRun) : TestRun :=
  if last_capabilities &&& CAPABILITY_SATELLITE_BLOCKLIST = 0 then skippedRun
  else body

/-- C9: without the `SATELLITE_BLOCKLIST` capability bit, each of the
three blocklist tests returns immediately — no HAL call, no assertion
failure — whatever its body would have done. -/
theorem blocklistTests_skip_without_capability
    (last_capabilities : Nat) (body1 body2 body3 : TestRun)
    (h : last_capabilities &&& CAPABILITY_SATELLITE_BLOCKLIST = 0) :
    blocklistIndividualSatellitesRun last_capabilities body1 = skippedRun ∧
    blocklistConstellationLocationOffRun last_capabilities body2 = skippedRun ∧
    blocklistConstellationLocationOnRun last_capabilities body3 = skippedRun ∧
    skippedRun.halCalls = 0 ∧ skippedRun.hardFailures = 0 ∧
    skippedRun.softFailures = 0 := by
  unfold blocklistIndividualSatellitesRun blocklistConstellationLocationOffRun
    blocklistConstellationLocationOnRun
  simp [h, skippedRun]

/-- Witness for the C9 theorem: capabilities 0 lack the bit; the bodies'
effects are discarded. -/
theorem blocklistTests_skip_without_capability_witness :
    blocklistIndividualSatellitesRun 0 ⟨5, 1, 2⟩ = skippedRun ∧
    blocklistConstellationLocationOffRun 0 ⟨3, 0, 4⟩ = skippedRun ∧
    blocklistConstellationLocationOnRun 0 ⟨7, 2, 0⟩ = skippedRun ∧
    skippedRun.halCalls = 0 ∧ skippedRun.hardFailures = 0 ∧
    skippedRun.softFailures = 0 :=
  blocklistTests_skip_without_capability 0 ⟨5, 1, 2⟩ ⟨3, 0, 4⟩ ⟨7, 2, 0⟩ (by decide)

/-! ## `TestPsdsExtension` -/

/-- `PsdsType::LONG_TERM = 1` of `android.hardware.gnss.PsdsType` (an
interface file of this repository outside the reviewed test source). -/
def PsdsType.LONG_TERM : Nat := 1

/-- Modelled from the spec: the assistance-data (PSDS) HAL surface the
test drives — `getExtensionPsds` and `injectPsdsData` live in the vendor
HAL, outside this repository's test source; only the outcomes the test
observes are represented: whether getting the extension reports success,
whether the returned handle is non-null, and the success bit of the
status each `injectPsdsData(type, payload)` call returns. -/
structure PsdsHal where
  getExtensionPsdsStatusOk : Bool
  iGnssPsdsNonNull : Bool
  injectPsdsDataStatusOk : Nat → List Nat → Bool

/-- `TestPsdsExtension` (lines 42–50): `ASSERT_TRUE(status.isOk())` for
`getExtensionPsds`, `ASSERT_TRUE(iGnssPsds != nullptr)`, then inject an
empty byte vector with `PsdsType::LONG_TERM` and
`ASSERT_FALSE(status.isOk())`.  A hard assertion aborts the test, so the
test passes exactly when every asserted condition holds. -/
def TestPsdsExtension (hal : PsdsHal) : Bool :=
  hal.getExtensionPsdsStatusOk && hal.iGnssPsdsNonNull &&
  !(hal.injectPsdsDataStatusOk PsdsType.LONG_TERM [])

/-- C10: `TestPsdsExtension` passes exactly when getting the PSDS
extension succeeds with a non-null handle and injecting the empty
assistance-data payload returns a not-ok status. -/
theorem testPsdsExtension_passes_iff (hal : PsdsHal) :
    TestPsdsExtension hal = true ↔
      hal.getExtensionPsdsStatusOk = true ∧ hal.iGnssPsdsNonNull = true ∧
      hal.injectPsdsDataStatusOk PsdsType.LONG_TERM [] = false := by
  simp [TestPsdsExtension, and_assoc]

/-- Witness for the C10 theorem: a HAL that rejects the empty payload
passes the test. -/
theorem testPsdsExtension_passes_iff_witness :
    TestPsdsExtension ⟨true, true, fun _ _ => false⟩ = true :=
  (testPsdsExtension_passes_iff ⟨true, true, fun _ _ => false⟩).mpr
    ⟨rfl, rfl, rfl⟩
